import Mathlib

/-!
Verification development for the Sentinel validator-monitoring core.

The definitions below are a shallow embedding of the TypeScript sources:

* `packages/sentinel-agent/src/monitoring/BeaconNodeMonitor.ts` (the probe),
* `packages/sentinel-agent/src/p2p/PeerNetwork.ts` (peer consensus request),
* `packages/sentinel-agent/src/core/SentinelAgent.ts` (reporter / consensus
  confirmation),
* `packages/sentinel-backend/src/app.ts` (`POST /api/report` ingress),
* `packages/sentinel-backend/src/services/AgentP2PService.ts` (aggregator),
* `packages/sentinel-backend/src/services/WebhookService.ts` (webhook signing).

Time is modelled as milliseconds (`Nat`); network interactions are modelled by
passing the observed outcomes (HTTP attempt results, inbound peer messages with
arrival times) as explicit inputs; the database is explicit state.
-/

namespace Sentinel

/-! ## Probe: `BeaconNodeMonitor.checkBeaconNodeHealth`

Each loop iteration performs one axios GET of `/eth/v1/node/health` with
`validateStatus: (status) => status < 500`, so an HTTP response with status
< 500 is returned normally while a 5xx response or a transport failure throws.
An attempt therefore either yields a numeric HTTP status (< 500) or a thrown
error message.  On a 200 response the monitor optionally fetches the head
block; `blockFetch` is the parsed slot when that sub-fetch succeeded and was
parseable, `none` when it failed (its failure is swallowed). -/

inductive AttemptOutcome where
  | ok (httpStatus : Nat)
  | thrown (msg : String)
deriving DecidableEq, Repr

structure Attempt where
  outcome : AttemptOutcome
  blockFetch : Option Nat
deriving DecidableEq, Repr

/-- The fields of `BeaconNodeStatus` that the retry loop determines
(`responseTime`/`timestamp` are wall-clock readings and are omitted). -/
structure BeaconNodeStatus where
  isHealthy : Bool
  blockHeight : Option Nat
  error : Option String
deriving DecidableEq, Repr

/-- Error string recorded for a non-200 HTTP response
(`HTTP ${response.status}: ${response.statusText}`; the upstream status text
is abstracted away). -/
def httpErrorMsg (status : Nat) : String := "HTTP " ++ toString status

/-- The retry loop of `checkBeaconNodeHealth`: `n` attempts remain, `attempts`
lists the outcome each successive axios call would produce, `lastError` is the
`lastError` variable, `delays` counts the executed `await this.delay(1000)`
calls (the 1-second pauses).  The delay runs only in the `catch` branch and
only when `attempt < maxRetries`. -/
def checkGo : Nat → List Attempt → Option String → Nat → BeaconNodeStatus × Nat
  | 0, _, lastError, delays =>
      (⟨false, none,
        some (lastError.getD "Health check failed after all retries")⟩, delays)
  | _ + 1, [], lastError, delays =>
      (⟨false, none,
        some (lastError.getD "Health check failed after all retries")⟩, delays)
  | n + 1, a :: rest, _lastError, delays =>
      match a.outcome with
      | .ok s =>
          if s == 200 then (⟨true, a.blockFetch, none⟩, delays)
          else checkGo n rest (some (httpErrorMsg s)) delays
      | .thrown msg =>
          checkGo n rest (some msg) (if 0 < n then delays + 1 else delays)

/-- Models `checkBeaconNodeHealth` with `maxRetries` attempts, given the outcome each
attempt would observe.  Returns the resulting status and the number of
1-second retry delays executed. -/
def checkBeaconNodeHealth (maxRetries : Nat) (attempts : List Attempt) :
    BeaconNodeStatus × Nat :=
  checkGo maxRetries attempts none 0

/-- An attempt that terminates the loop successfully: an HTTP 200 response. -/
def isSuccessAttempt (a : Attempt) : Bool :=
  match a.outcome with
  | .ok s => s == 200
  | .thrown _ => false

/-- The `lastError` message a failed attempt leaves behind. -/
def attemptErrorMsg (a : Attempt) : String :=
  match a.outcome with
  | .ok s => httpErrorMsg s
  | .thrown msg => msg

/-- Attempts that ran the `catch` branch (thrown transport/5xx errors). -/
def isThrownAttempt (a : Attempt) : Bool :=
  match a.outcome with
  | .ok _ => false
  | .thrown _ => true

/-! ## Webhook signing: `WebhookService`

`sendWebhook` serializes the payload once (`JSON.stringify`), signs that exact
string, and posts that exact string as the body.  The HMAC-SHA256 primitive is
Node's `crypto` library, an external collaborator; it is a parameter
`hmac : secret → message → hex digest` below. -/

structure WebhookConfig where
  id : String
  name : String
  url : String
  secret : Option String
  events : List String
  isActive : Bool
  userId : String
deriving DecidableEq, Repr

/-- JS truthiness of `webhook.secret` (`undefined`, `null` and `""` are
falsy). -/
def secretTruthy : Option String → Bool
  | none => false
  | some s => !(s == "")

/-- Models `generateSignature(payload, secret)`: `null` when the secret is falsy,
otherwise the hex HMAC-SHA256 digest of the payload keyed by the secret. -/
def generateSignature (hmac : String → String → String) (payload : String)
    (secret : Option String) : Option String :=
  if secretTruthy secret then some (hmac (secret.getD "") payload) else none

/-- Models `validateSignature(payload, signature, secret)`. -/
def validateSignature (hmac : String → String → String)
    (payload sig secret : String) : Bool :=
  if secret == "" || sig == "" then false
  else sig == hmac secret payload

/-- The body and headers of the HTTP POST that `sendWebhook` issues for a
given already-serialized payload string. -/
structure WebhookDelivery where
  body : String
  headers : List (String × String)
deriving DecidableEq, Repr

def sendWebhookDelivery (hmac : String → String → String)
    (webhook : WebhookConfig) (payloadString : String) : WebhookDelivery :=
  let sig := generateSignature hmac payloadString webhook.secret
  { body := payloadString
    headers :=
      [("Content-Type", "application/json"),
       ("Content-Length", toString payloadString.utf8ByteSize),
       ("User-Agent", "Sentinel-Webhook/1.0")] ++
      (match sig with
       | some s => [("X-Sentinel-Signature", s)]
       | none => []) ++
      (if secretTruthy webhook.secret then
        [("X-Sentinel-Secret", webhook.secret.getD "")]
       else []) }

/-! ## Agent peer consensus: `PeerNetwork.requestConsensus`

`requestConsensus` subscribes a handler for `consensus_response` events,
broadcasts the request, sleeps unconditionally for `timeoutMs`
(`await new Promise((resolve) => setTimeout(resolve, timeoutMs))` — there is
no early-completion branch), then unsubscribes.  The handler therefore
processes exactly the `consensus_response` events delivered strictly before
the timeout fires, in delivery order.  We model the inbound event stream as a
list of responses tagged with their arrival time (in delivery order) and fold
the handler over the ones arriving before the timeout.  The `timestamp` and
`evidence` fields of a response are carried opaquely by the source and are
omitted. -/

structure ConsensusResponse where
  validatorId : String
  consensusId : String
  agree : Bool
  agentId : String
  requesterId : String
deriving DecidableEq, Repr

structure ConsensusResult where
  consensusId : String
  responses : List ConsensusResponse
  agreeCount : Nat
  totalPeers : Nat
deriving DecidableEq, Repr

/-- The duplicate-collapsing push: `findIndex` by `agentId`, replace in place
when found, append otherwise. -/
def upsertResponse : List ConsensusResponse → ConsensusResponse →
    List ConsensusResponse
  | [], r => [r]
  | q :: qs, r =>
      if q.agentId == r.agentId then r :: qs else q :: upsertResponse qs r

/-- The subscribed handler: it keeps a response only when its `consensusId`
and `requesterId` match this request. -/
def handleConsensusResponse (selfId cid : String)
    (acc : List ConsensusResponse) (r : ConsensusResponse) :
    List ConsensusResponse :=
  if r.consensusId == cid && r.requesterId == selfId then upsertResponse acc r
  else acc

/-- An inbound `consensus_response` event together with its arrival time
(milliseconds after the broadcast). -/
structure TimedResponse where
  arrival : Nat
  response : ConsensusResponse
deriving DecidableEq, Repr

/-- Models `PeerNetwork.requestConsensus`.  `peerCount` is `this.peers.size` (held
fixed over the wait in this model), `cid` the freshly generated UUID, and
`events` the inbound `consensus_response` stream in delivery order. -/
def requestConsensus (selfId cid : String) (peerCount timeout : Nat)
    (events : List TimedResponse) : ConsensusResult :=
  if peerCount == 0 then ⟨cid, [], 0, 0⟩
  else
    let responses :=
      ((events.filter (fun e => e.arrival < timeout)).map (·.response)).foldl
        (handleConsensusResponse selfId cid) []
    ⟨cid, responses, (responses.filter (·.agree)).length, peerCount⟩

/-! ## Agent reporter: `SentinelAgent`

`confirmUnhealthyWithPeers` returns `true` without consulting peers when P2P
is disabled or the peer network is absent; otherwise it issues
`requestConsensus` and decides from the result. -/

def confirmUnhealthyWithPeers (p2pEnabled hasPeerNetwork : Bool)
    (threshold : Nat) (cr : ConsensusResult) : Bool :=
  if !p2pEnabled || !hasPeerNetwork then true
  else if cr.totalPeers == 0 then true
  else decide (threshold ≤ cr.agreeCount + 1)

inductive HealthStatus where
  | HEALTHY
  | UNHEALTHY
deriving DecidableEq, Repr

/-- The reporter state relevant to suppression: `lastReportedStatus` is the
last status successfully reported to the collector (initially `undefined`). -/
structure AgentReporterState where
  lastReportedStatus : Option HealthStatus
deriving DecidableEq, Repr

/-- Models `SentinelAgent.hasStatusChanged`. -/
def hasStatusChanged (st : AgentReporterState) (current : HealthStatus) :
    Bool :=
  match st.lastReportedStatus with
  | none => true
  | some s => !(s == current)

/-- Models `SentinelAgent.sendHealthReport`: issues one POST to the collector; on a
successful response records the reported status.  Returns the new state and
the number of report requests sent (always one). -/
def sendHealthReport (st : AgentReporterState) (status : HealthStatus)
    (sendOk : Bool) : AgentReporterState × Nat :=
  (if sendOk then { lastReportedStatus := some status } else st, 1)

/-- Models `SentinelAgent.handleHealthResult` with the consensus decision already
evaluated: an UNHEALTHY result is reported only when the peer-consensus
confirmation succeeded; any other result is reported only on a status
change. -/
def handleHealthResult (st : AgentReporterState) (status : HealthStatus)
    (consensusConfirmed sendOk : Bool) : AgentReporterState × Nat :=
  if status == .UNHEALTHY then
    if consensusConfirmed then sendHealthReport st status sendOk else (st, 0)
  else
    if hasStatusChanged st status then sendHealthReport st status sendOk
    else (st, 0)

/-- Models `handleHealthResult` for an UNHEALTHY probe with the confirmation decision
taken by `confirmUnhealthyWithPeers` on the consensus result. -/
def handleUnhealthyResult (st : AgentReporterState)
    (p2pEnabled hasPeerNetwork : Bool) (threshold : Nat)
    (cr : ConsensusResult) (sendOk : Bool) : AgentReporterState × Nat :=
  handleHealthResult st .UNHEALTHY
    (confirmUnhealthyWithPeers p2pEnabled hasPeerNetwork threshold cr) sendOk

/-- One monitoring cycle as seen by the reporter: the probe outcome, whether
the peer-consensus confirmation would succeed, and whether the collector
accepts the report. -/
structure AgentCycle where
  status : HealthStatus
  consensusConfirmed : Bool
  sendOk : Bool
deriving DecidableEq, Repr

/-- A run of monitoring cycles; returns the final reporter state and how many
report requests were sent to the collector in total. -/
def runReporter (st : AgentReporterState) : List AgentCycle →
    AgentReporterState × Nat
  | [] => (st, 0)
  | c :: cs =>
      let out := handleHealthResult st c.status c.consensusConfirmed c.sendOk
      let rest := runReporter out.1 cs
      (rest.1, out.2 + rest.2)

/-! ## Collector: data model

Mirrors the local enums and interfaces of `AgentP2PService.ts` and the Prisma
rows touched by the report path.  `createdAt`/`lastSeen` are millisecond
timestamps. -/

inductive ReportStatus where
  | HEALTHY
  | UNHEALTHY
  | CONSENSUS_REACHED
  | CONSENSUS_FAILED
deriving DecidableEq, Repr

inductive AlertStatus where
  | PENDING
  | ACKNOWLEDGED
  | RESOLVED
deriving DecidableEq, Repr

structure AgentReport where
  id : Nat
  agentId : String
  validatorId : Option String
  status : ReportStatus
  message : Option String
  signature : Option String
  consensus : Bool
  createdAt : Nat
deriving DecidableEq, Repr

structure ConsensusData where
  validatorId : String
  status : ReportStatus
  reports : List AgentReport
  consensusReached : Bool
  threshold : Nat
deriving DecidableEq, Repr

structure Validator where
  id : String
  name : String
  userId : String
  isActive : Bool
deriving DecidableEq, Repr

structure Agent where
  id : String
  apiKey : String
  isActive : Bool
  validatorId : Option String
  lastSeen : Nat
deriving DecidableEq, Repr

structure Alert where
  validatorId : String
  userId : String
  message : String
  status : AlertStatus
deriving DecidableEq, Repr

/-- WebSocket messages emitted on the report path. -/
inductive Broadcast where
  | consensusUpdate (validatorId : String)
      (totalReports unhealthyReports threshold : Nat) (consensusReached : Bool)
  | validatorUnhealthy (validatorId : String) (reportCount : Nat)
  | validatorHealthy (validatorId : String) (consensusCancelled : Bool)
  | alertNotification (a : Alert)
deriving DecidableEq, Repr

/-- Collector-side state: the in-memory `activeConsensus` map and
`reportHistory` of `AgentP2PService`, plus the durable rows and the emitted
broadcasts / webhook dispatches. -/
structure BackendState where
  activeConsensus : List (String × ConsensusData)
  dbReports : List AgentReport
  dbAgents : List Agent
  alerts : List Alert
  broadcasts : List Broadcast
  webhooksFired : List (String × String)
  reportHistory : List (String × List Nat)
  nextReportId : Nat
deriving DecidableEq, Repr

/-- Static environment: the validator table (read-only on this path), the
configured consensus threshold, and whether `prisma.alert.create` succeeds
(`false` injects a storage fault at alert creation). -/
structure AggEnv where
  validators : List Validator
  threshold : Nat
  alertCreateOk : Bool
deriving DecidableEq, Repr

/-! ### JS `Map` operations on the `activeConsensus` association list -/

def mapFind (m : List (String × ConsensusData)) (k : String) :
    Option ConsensusData :=
  (m.find? (fun e => e.1 == k)).map (·.2)

def mapSet (m : List (String × ConsensusData)) (k : String)
    (v : ConsensusData) : List (String × ConsensusData) :=
  if m.any (fun e => e.1 == k) then
    m.map (fun e => if e.1 == k then (k, v) else e)
  else m ++ [(k, v)]

def mapDelete (m : List (String × ConsensusData)) (k : String) :
    List (String × ConsensusData) :=
  m.filter (fun e => !(e.1 == k))

/-- The key `validator_<id>` of the `activeConsensus` map. -/
def consensusKey (validatorId : String) : String :=
  "validator_" ++ validatorId

/-! ### Aggregator: `AgentP2PService` -/

/-- Models `prisma.agent.update({where:{id}, data:{lastSeen: now}})`; Prisma throws
(`P2025`) when no row matches. -/
def updateLastSeen (agents : List Agent) (aid : String) (now : Nat) :
    List Agent :=
  agents.map (fun a => if a.id == aid then { a with lastSeen := now } else a)

def updateLastSeenOrFail (agents : List Agent) (aid : String) (now : Nat) :
    Option (List Agent) :=
  if agents.any (fun a => a.id == aid) then
    some (updateLastSeen agents aid now)
  else none

/-- Models `prisma.agentReport.updateMany` setting `status := CONSENSUS_REACHED,
consensus := true` on the listed row ids. -/
def markReportsReached (rows : List AgentReport) (ids : List Nat) :
    List AgentReport :=
  rows.map (fun r =>
    if ids.contains r.id then
      { r with status := .CONSENSUS_REACHED, consensus := true }
    else r)

/-- Models `prisma.agentReport.updateMany` setting `status := CONSENSUS_FAILED` on
the listed row ids. -/
def markReportsFailed (rows : List AgentReport) (ids : List Nat) :
    List AgentReport :=
  rows.map (fun r =>
    if ids.contains r.id then { r with status := .CONSENSUS_FAILED } else r)

/-- The in-window upsert of `addReportToConsensus`: the first report by the
same agent is updated in place (keeping its row id), otherwise the report is
appended. -/
def upsertWindowReport : List AgentReport → AgentReport → List AgentReport
  | [], r => [r]
  | q :: qs, r =>
      if q.agentId == r.agentId then
        { q with status := r.status, message := r.message,
                 createdAt := r.createdAt } :: qs
      else q :: upsertWindowReport qs r

def countUnhealthy (reports : List AgentReport) : Nat :=
  (reports.filter (fun r => r.status == ReportStatus.UNHEALTHY)).length

/-- Models `reachConsensus`: sets the `consensusReached` latch on the shared window
object (it does NOT remove the window from the map), then inside a
`try/catch`: looks up the validator, creates the alert, rewrites the window's
durable rows to CONSENSUS_REACHED, broadcasts, and fires webhooks.  A missing
validator returns early; a storage fault at `alert.create` lands in the
`catch`, which only logs — the latch stays set and nothing is propagated. -/
def reachConsensus (env : AggEnv) (st : BackendState) (cd : ConsensusData)
    (key : String) : BackendState :=
  let cd := { cd with consensusReached := true }
  let st := { st with activeConsensus := mapSet st.activeConsensus key cd }
  match env.validators.find? (fun v => v.id == cd.validatorId) with
  | none => st
  | some validator =>
      if env.alertCreateOk then
        let alert : Alert :=
          { validatorId := cd.validatorId
            userId := validator.userId
            message := "Validator " ++ validator.name ++
              " is unhealthy. Consensus reached with " ++
              toString cd.reports.length ++ " agent reports."
            status := .PENDING }
        { st with
          alerts := st.alerts ++ [alert]
          dbReports := markReportsReached st.dbReports (cd.reports.map (·.id))
          broadcasts := st.broadcasts ++
            [.validatorUnhealthy validator.id cd.reports.length,
             .alertNotification alert]
          webhooksFired := st.webhooksFired ++
            [(validator.userId, "validator.unhealthy")] }
      else st

/-- Models `addReportToConsensus`: upsert the report into the window, recompute the
unhealthy count, fire `reachConsensus` when the count crosses the threshold
and the latch is not yet set (`resetConsensusTimer` is a no-op), then emit the
`consensus_update` broadcast.  The broadcast reads `consensusReached` from the
shared window object, i.e. after a possible `reachConsensus` mutation. -/
def addReportToConsensus (env : AggEnv) (st : BackendState)
    (cd : ConsensusData) (key : String) (r : AgentReport) : BackendState :=
  let cd1 := { cd with reports := upsertWindowReport cd.reports r }
  let st1 := { st with activeConsensus := mapSet st.activeConsensus key cd1 }
  let unhealthyCount := countUnhealthy cd1.reports
  let fired := cd1.threshold ≤ unhealthyCount ∧ cd1.consensusReached = false
  let st2 := if fired then reachConsensus env st1 cd1 key else st1
  let reachedNow := cd1.consensusReached ||
    (cd1.threshold ≤ unhealthyCount ∧ cd1.consensusReached = false : Bool)
  { st2 with broadcasts := st2.broadcasts ++
      [.consensusUpdate cd1.validatorId cd1.reports.length unhealthyCount
        cd1.threshold reachedNow] }

/-- Models `initiateConsensus`: reuse the existing window for the validator or open a
new one seeded with this report, then run `addReportToConsensus` (for a fresh
window the seed report is upserted onto itself). -/
def initiateConsensus (env : AggEnv) (st : BackendState) (r : AgentReport) :
    BackendState :=
  match r.validatorId with
  | none => st
  | some vid =>
      let key := consensusKey vid
      match mapFind st.activeConsensus key with
      | some existing => addReportToConsensus env st existing key r
      | none =>
          let cd : ConsensusData :=
            { validatorId := vid, status := .UNHEALTHY, reports := [r],
              consensusReached := false, threshold := env.threshold }
          let st1 :=
            { st with activeConsensus := mapSet st.activeConsensus key cd }
          addReportToConsensus env st1 cd key r

/-- Models `cancelConsensus`: when a window exists for the validator, rewrite its
durable rows to CONSENSUS_FAILED, broadcast the healthy update and drop the
window; otherwise do nothing. -/
def cancelConsensus (st : BackendState) (vid : String) : BackendState :=
  let key := consensusKey vid
  match mapFind st.activeConsensus key with
  | none => st
  | some cd =>
      { st with
        dbReports := markReportsFailed st.dbReports (cd.reports.map (·.id))
        broadcasts := st.broadcasts ++ [.validatorHealthy vid true]
        activeConsensus := mapDelete st.activeConsensus key }

/-- The 10-minute aging bound of `cleanupOldConsensus`. -/
def maxConsensusAge : Nat := 10 * 60 * 1000

/-- One sweep step over a map entry: the age is measured from the first
report of the window (`consensus.reports[0].createdAt`; windows always hold at
least one report — an empty one would make the source throw).  Note the age
test does NOT consult `consensusReached`. -/
def cleanupStep (now : Nat) (st : BackendState)
    (entry : String × ConsensusData) : BackendState :=
  let openedAt := ((entry.2.reports.head?).map (·.createdAt)).getD 0
  if maxConsensusAge < now - openedAt then
    { st with
      dbReports := markReportsFailed st.dbReports (entry.2.reports.map (·.id))
      activeConsensus := mapDelete st.activeConsensus entry.1 }
  else st

/-- Models `cleanupOldConsensus`: the 5-minutely background sweep over all windows. -/
def cleanupOldConsensus (now : Nat) (st : BackendState) : BackendState :=
  st.activeConsensus.foldl (cleanupStep now) st

/-- Models `addToReportHistory`: append the current time to the agent's history,
capped at the last 100 entries. -/
def addToReportHistory (h : List (String × List Nat)) (agentId : String)
    (now : Nat) : List (String × List Nat) :=
  if h.any (fun e => e.1 == agentId) then
    h.map (fun e =>
      if e.1 == agentId then
        let times := e.2 ++ [now]
        (e.1, if 100 < times.length then times.drop 1 else times)
      else e)
  else h ++ [(agentId, [now])]

/-- Models `processReport`: the whole body runs in a `try/catch` whose `catch` only
logs, so no error ever reaches the caller — the second component is the
propagated error and is always `none`.  A failing `agent.update` is caught
(skipping the rest); an UNHEALTHY report feeds the consensus window, a
HEALTHY report cancels it (via the `validator_<id>` key built from the
non-null-asserted `validatorId`), any other status touches no window. -/
def processReport (env : AggEnv) (now : Nat) (st : BackendState)
    (r : AgentReport) : BackendState × Option String :=
  match updateLastSeenOrFail st.dbAgents r.agentId now with
  | none => (st, none)
  | some agents =>
      let st1 := { st with dbAgents := agents }
      let st2 :=
        if r.status == ReportStatus.UNHEALTHY then initiateConsensus env st1 r
        else if r.status == ReportStatus.HEALTHY then
          cancelConsensus st1 (r.validatorId.getD "undefined")
        else st1
      ({ st2 with
          reportHistory := addToReportHistory st2.reportHistory r.agentId now },
       none)

/-! ### Collector ingress: `POST /api/report` (`app.ts`) -/

structure ReportRequest where
  agentId : Option String
  agentApiKey : Option String
  validatorId : Option String
  status : Option String
  message : Option String
  signature : Option String
deriving DecidableEq, Repr

/-- JS falsiness of a JSON string field (`undefined` or `""`). -/
def blank (o : Option String) : Bool := o.getD "" == ""

/-- Membership in `allowedStatuses`, together with the parsed enum value. -/
def parseReportStatus : String → Option ReportStatus
  | "HEALTHY" => some .HEALTHY
  | "UNHEALTHY" => some .UNHEALTHY
  | "CONSENSUS_REACHED" => some .CONSENSUS_REACHED
  | "CONSENSUS_FAILED" => some .CONSENSUS_FAILED
  | _ => none

structure IngressResult where
  code : Nat
  success : Bool
  reportId : Option Nat
deriving DecidableEq, Repr

/-- The `agent.validator` relation loaded by `findUnique({include})`. -/
def agentValidator (env : AggEnv) (agent : Agent) : Option Validator :=
  agent.validatorId.bind (fun vid =>
    env.validators.find? (fun v => v.id == vid))

/-- The `POST /api/report` handler.  Validation failures return before any
write; an accepted report is persisted, `lastSeen` is bumped, and the report
is handed to `processReport` before the 200 response (a propagated error
would turn into a 500 through the handler's `catch`). -/
def handleReport (env : AggEnv) (now : Nat) (st : BackendState)
    (req : ReportRequest) : IngressResult × BackendState :=
  if blank req.agentId || blank req.agentApiKey || blank req.validatorId ||
      blank req.status then
    (⟨400, false, none⟩, st)
  else
    match parseReportStatus (req.status.getD "") with
    | none => (⟨400, false, none⟩, st)
    | some status =>
        match st.dbAgents.find? (fun a => a.id == req.agentId.getD "") with
        | none => (⟨401, false, none⟩, st)
        | some agent =>
            if !agent.isActive then (⟨401, false, none⟩, st)
            else if !(agent.apiKey == req.agentApiKey.getD "") then
              (⟨401, false, none⟩, st)
            else
              match agentValidator env agent with
              | none => (⟨403, false, none⟩, st)
              | some validator =>
                  if !(validator.id == req.validatorId.getD "") then
                    (⟨403, false, none⟩, st)
                  else if !validator.isActive then (⟨403, false, none⟩, st)
                  else
                    let row : AgentReport :=
                      { id := st.nextReportId
                        agentId := agent.id
                        validatorId := some (req.validatorId.getD "")
                        status := status
                        message := req.message
                        signature := req.signature
                        consensus := false
                        createdAt := now }
                    let st1 := { st with
                      dbReports := st.dbReports ++ [row]
                      nextReportId := st.nextReportId + 1 }
                    let st2 := { st1 with
                      dbAgents := updateLastSeen st1.dbAgents agent.id now }
                    match processReport env now st2 row with
                    | (st3, none) => (⟨200, true, some row.id⟩, st3)
                    | (st3, some _) => (⟨500, false, none⟩, st3)

/-- Durable status of a report row, by row id. -/
def lookupReportStatus (rows : List AgentReport) (i : Nat) :
    Option ReportStatus :=
  (rows.find? (fun r => r.id == i)).map (·.status)

def c1Env : AggEnv :=
  { validators := [⟨"v", "Val", "u", true⟩], threshold := 2,
    alertCreateOk := true }

def c1Report1 : AgentReport :=
  ⟨1, "a1", some "v", .UNHEALTHY, none, none, false, 0⟩

def c1Report2 : AgentReport :=
  ⟨2, "a2", some "v", .UNHEALTHY, none, none, false, 0⟩

def c1State0 : BackendState :=
  { activeConsensus := []
    dbReports := [c1Report1, c1Report2]
    dbAgents := [⟨"a1", "k1", true, some "v", 0⟩,
                 ⟨"a2", "k2", true, some "v", 0⟩]
    alerts := [], broadcasts := [], webhooksFired := [], reportHistory := []
    nextReportId := 3 }

/-- The state after both UNHEALTHY reports were aggregated (quorum fired on
the second). -/
def c1StateQuorum : BackendState :=
  (processReport c1Env 0 (processReport c1Env 0 c1State0 c1Report1).1
    c1Report2).1

def c4Env : AggEnv :=
  { validators := [⟨"v", "Val", "u", true⟩], threshold := 1,
    alertCreateOk := false }

def c4State0 : BackendState :=
  { activeConsensus := []
    dbReports := []
    dbAgents := [⟨"a1", "k1", true, some "v", 0⟩]
    alerts := [], broadcasts := [], webhooksFired := [], reportHistory := []
    nextReportId := 1 }

def c4Request : ReportRequest :=
  ⟨some "a1", some "k1", some "v", some "UNHEALTHY", none, none⟩

/-- The filter of the subscribed handler (`response.consensusId ===
consensusId && response.requesterId === this.agentId`). -/
def acceptResponse (selfId cid : String) (r : ConsensusResponse) : Bool :=
  r.consensusId == cid && r.requesterId == selfId

/-- The response kept for a given `agentId`. -/
def findResp (l : List ConsensusResponse) (a : String) :
    Option ConsensusResponse :=
  l.find? (fun q => q.agentId == a)

def optOr {α : Type} : Option α → Option α → Option α
  | some x, _ => some x
  | none, y => y

/-- The window object after `addReportToConsensus` upserts a report. -/
def windowWithReport (cd : ConsensusData) (r : AgentReport) : ConsensusData :=
  { cd with reports := upsertWindowReport cd.reports r }

/-- A backend state with its `activeConsensus` map replaced. -/
def withConsensusMap (st : BackendState)
    (m : List (String × ConsensusData)) : BackendState :=
  { st with activeConsensus := m }

/-- The fresh window that `initiateConsensus` opens. -/
def newWindow (vid : String) (r : AgentReport) (threshold : Nat) :
    ConsensusData :=
  { validatorId := vid, status := .UNHEALTHY, reports := [r],
    consensusReached := false, threshold := threshold }

/-! ## Theorems -/

/-! ### Probe retry loop (C7) -/

theorem getLastD_cons_eq {α : Type} (a d : α) (l : List α) :
    (a :: l).getLastD d = l.getLastD a := by
  cases l <;> simp [List.getLastD]

theorem checkGo_fail (n : Nat) (attempts : List Attempt) (e : Option String)
    (d : Nat) (h : ∀ a ∈ attempts.take n, isSuccessAttempt a = false) :
    checkGo n attempts e d =
      (⟨false, none,
        some (((attempts.take n).map attemptErrorMsg).getLastD
          (e.getD "Health check failed after all retries"))⟩,
       d + ((attempts.take (n - 1)).filter isThrownAttempt).length) := by
  induction n generalizing attempts e d with
  | zero => simp [checkGo]
  | succ n ih =>
    cases attempts with
    | nil => simp [checkGo]
    | cons a rest =>
      have ha : isSuccessAttempt a = false := h a (by simp)
      have hrest : ∀ x ∈ rest.take n, isSuccessAttempt x = false := by
        intro x hx
        exact h x (by simp [List.take_cons]; right; exact hx)
      cases houtcome : a.outcome with
      | ok s =>
        have hs : (s == 200) = false := by
          simpa [isSuccessAttempt, houtcome] using ha
        have hstep : checkGo (n + 1) (a :: rest) e d =
            checkGo n rest (some (httpErrorMsg s)) d := by
          rw [checkGo, houtcome]; simp [hs]
        rw [hstep, ih rest (some (httpErrorMsg s)) d hrest]
        have hmsg : attemptErrorMsg a = httpErrorMsg s := by
          simp [attemptErrorMsg, houtcome]
        cases n with
        | zero => simp [hmsg]
        | succ m =>
          rw [List.take_cons, List.map_cons, getLastD_cons_eq]
          simp [hmsg, List.filter_cons, isThrownAttempt, houtcome,
            List.take_cons]
          all_goals omega
      | thrown msg =>
        have hstep : checkGo (n + 1) (a :: rest) e d =
            checkGo n rest (some msg) (if 0 < n then d + 1 else d) := by
          rw [checkGo, houtcome]
        rw [hstep, ih rest (some msg) _ hrest]
        have hmsg : attemptErrorMsg a = msg := by
          simp [attemptErrorMsg, houtcome]
        cases n with
        | zero => simp [hmsg]
        | succ m =>
          rw [List.take_cons, List.map_cons, getLastD_cons_eq]
          simp [hmsg, List.filter_cons, isThrownAttempt, houtcome,
            List.take_cons]
          all_goals omega

/-- C7 as stated is false on the code: `checkBeaconNodeHealth` treats only
HTTP 200 as healthy, so an HTTP 202 response (a 2xx) yields UNHEALTHY; and
the 1-second delay runs only after thrown attempts (transport/5xx), so three
4xx responses are retried with zero delays. -/
theorem probe_2xx_and_delay_counterexample :
    (checkBeaconNodeHealth 3
      [⟨.ok 202, none⟩, ⟨.ok 202, none⟩, ⟨.ok 202, none⟩]).1.isHealthy =
        false ∧
    (checkBeaconNodeHealth 3
      [⟨.ok 404, none⟩, ⟨.ok 404, none⟩, ⟨.ok 404, none⟩]).2 = 0 := by
  decide

/-- C7 amended: an HTTP 200 response at any attempt yields HEALTHY, with a
failed block-height fetch (`blockFetch = none`) never downgrading the result;
when every attempt within `healthCheckRetries` fails (non-200 response or
thrown error), the result is UNHEALTHY carrying the last error string, and
the 1-second delay runs exactly after the thrown (transport/5xx) attempts
other than the last one — never after a non-200 HTTP response. -/
theorem probe_retry_amended :
    (∀ (n : Nat) (a : Attempt) (rest : List Attempt) (e : Option String)
        (d : Nat), isSuccessAttempt a = true →
        checkGo (n + 1) (a :: rest) e d = (⟨true, a.blockFetch, none⟩, d)) ∧
    (∀ (n : Nat) (attempts : List Attempt),
        (∀ a ∈ attempts.take n, isSuccessAttempt a = false) →
        checkBeaconNodeHealth n attempts =
          (⟨false, none,
            some (((attempts.take n).map attemptErrorMsg).getLastD
              "Health check failed after all retries")⟩,
           ((attempts.take (n - 1)).filter isThrownAttempt).length)) := by
  constructor
  · intro n a rest e d hsucc
    cases houtcome : a.outcome with
    | ok s =>
      have hs : (s == 200) = true := by
        simpa [isSuccessAttempt, houtcome] using hsucc
      rw [checkGo, houtcome]
      simp [hs]
    | thrown msg => simp [isSuccessAttempt, houtcome] at hsucc
  · intro n attempts h
    simpa using checkGo_fail n attempts none 0 h

theorem probe_retry_amended_witness :
    checkGo 3 [⟨.ok 200, none⟩, ⟨.ok 404, none⟩] none 0 =
      (⟨true, none, none⟩, 0) ∧
    checkBeaconNodeHealth 3
        [⟨.thrown "connect ECONNREFUSED", none⟩, ⟨.ok 404, none⟩,
         ⟨.thrown "timeout", none⟩] =
      (⟨false, none, some "timeout"⟩, 1) := by
  constructor
  · exact probe_retry_amended.1 2 ⟨.ok 200, none⟩ [⟨.ok 404, none⟩] none 0
      (by decide)
  · have h := probe_retry_amended.2 3
      [⟨.thrown "connect ECONNREFUSED", none⟩, ⟨.ok 404, none⟩,
       ⟨.thrown "timeout", none⟩] (by decide)
    rw [h]; decide

/-! ### Reporter suppression (C8) -/

/-- C8 as stated is false on the code: `lastReportedStatus` starts undefined,
so `hasStatusChanged` is true on the very first HEALTHY probe and the agent
sends one report — not zero — over an all-HEALTHY run. -/
theorem first_healthy_probe_reports_counterexample :
    (runReporter ⟨none⟩ [⟨.HEALTHY, true, true⟩]).2 = 1 := by decide

theorem runReporter_healthy_suppressed (cs : List AgentCycle)
    (h : ∀ c ∈ cs, c.status = .HEALTHY) :
    runReporter ⟨some .HEALTHY⟩ cs = (⟨some .HEALTHY⟩, 0) := by
  induction cs with
  | nil => rfl
  | cons c cs ih =>
    have hc : c.status = .HEALTHY := h c (by simp)
    have hrest : ∀ x ∈ cs, x.status = HealthStatus.HEALTHY := by
      intro x hx; exact h x (by simp [hx])
    simp [runReporter, handleHealthResult, hc, hasStatusChanged,
      ih hrest]

/-- C8 amended: over a run in which every probe returns HEALTHY, the Reporter
sends exactly one request — the initial status report fired because
`lastReportedStatus` starts undefined — provided that first send succeeds,
and zero requests from then on; and a HEALTHY report never creates an alert
in the aggregator. -/
theorem healthy_run_amended :
    (∀ (cs : List AgentCycle) (c : AgentCycle), c.status = .HEALTHY →
        c.sendOk = true → (∀ x ∈ cs, x.status = .HEALTHY) →
        (runReporter ⟨none⟩ (c :: cs)).2 = 1) ∧
    (∀ (env : AggEnv) (now : Nat) (st : BackendState) (r : AgentReport),
        r.status = .HEALTHY →
        ((processReport env now st r).1).alerts = st.alerts) := by
  constructor
  · intro cs c hc hok hrest
    simp [runReporter, handleHealthResult, hc, hasStatusChanged,
      sendHealthReport, hok, runReporter_healthy_suppressed cs hrest]
  · intro env now st r hr
    unfold processReport
    cases hup : updateLastSeenOrFail st.dbAgents r.agentId now with
    | none => rfl
    | some agents =>
      simp only [hr]
      unfold cancelConsensus
      cases hfind : mapFind st.activeConsensus
          (consensusKey (r.validatorId.getD "undefined")) <;>
        simp [hfind, addToReportHistory]

theorem healthy_run_amended_witness :
    (runReporter ⟨none⟩
      [⟨.HEALTHY, true, true⟩, ⟨.HEALTHY, false, true⟩,
       ⟨.HEALTHY, true, false⟩]).2 = 1 := by
  exact healthy_run_amended.1 [⟨.HEALTHY, false, true⟩, ⟨.HEALTHY, true, false⟩]
    ⟨.HEALTHY, true, true⟩ rfl rfl (by decide)

/-! ### Window lifetime under quorum and the aging sweep (C1)

A two-agent quorum trace: both reports arrive at `t = 0` against threshold 2,
then the sweep runs after the 10-minute bound. -/

/-- C1 is right about what should happen and the code does otherwise: after
quorum the window is NOT destroyed (it stays in `activeConsensus` with the
latch set, since `reachConsensus` never deletes it), and the aging sweep —
whose own comment says it cleans up "old consensus that never reached
threshold" — rewrites the CONSENSUS_REACHED rows of that quorum window to
CONSENSUS_FAILED, because `cleanupOldConsensus` only tests the age and never
the `consensusReached` flag. -/
theorem sweep_rewrites_quorum_window :
    lookupReportStatus c1StateQuorum.dbReports 1 =
      some .CONSENSUS_REACHED ∧
    lookupReportStatus c1StateQuorum.dbReports 2 =
      some .CONSENSUS_REACHED ∧
    (mapFind c1StateQuorum.activeConsensus (consensusKey "v")).map
      (·.consensusReached) = some true ∧
    lookupReportStatus
      (cleanupOldConsensus (maxConsensusAge + 1) c1StateQuorum).dbReports 1 =
      some .CONSENSUS_FAILED ∧
    lookupReportStatus
      (cleanupOldConsensus (maxConsensusAge + 1) c1StateQuorum).dbReports 2 =
      some .CONSENSUS_FAILED ∧
    mapFind
      (cleanupOldConsensus (maxConsensusAge + 1) c1StateQuorum).activeConsensus
      (consensusKey "v") = none := by
  decide

/-! ### Storage failure at alert creation (C4)

A fault-injected trace: the validator exists, quorum is crossed
(threshold 1), and `prisma.alert.create` fails. -/

/-- C4 is right about what should happen and the code does otherwise: when
`prisma.alert.create` fails at quorum, the `try/catch` of `reachConsensus`
(and the one in `processReport`) swallow the error, so the ingress still
answers `200 {success:true}`; no alert exists, yet the `consensusReached`
latch is set — the quorum event is silently lost and cannot fire again.
Also, `processReport` never propagates any error (second conjunct). -/
theorem alert_storage_failure_swallowed :
    ((handleReport c4Env 5 c4State0 c4Request).1 =
        ⟨200, true, some 1⟩ ∧
      (handleReport c4Env 5 c4State0 c4Request).2.alerts = [] ∧
      (mapFind (handleReport c4Env 5 c4State0 c4Request).2.activeConsensus
        (consensusKey "v")).map (·.consensusReached) = some true) ∧
    (∀ (env : AggEnv) (now : Nat) (st : BackendState) (r : AgentReport),
      (processReport env now st r).2 = none) := by
  constructor
  · decide
  · intro env now st r
    unfold processReport
    cases updateLastSeenOrFail st.dbAgents r.agentId now <;> simp

/-! ### Webhook signature round-trip (C9) -/

/-- C9: for a webhook configuration with a (truthy) secret, the
`X-Sentinel-Signature` header of every dispatched delivery is exactly the hex
HMAC-SHA256 of the posted body keyed by that secret, and
`validateSignature(body, header, secret)` accepts it.  `hmac` is the external
`crypto.createHmac(...).digest("hex")` primitive; its digests are 64 hex
characters, hence nonempty (`hdigest`). -/
theorem webhook_signature_roundtrip (hmac : String → String → String)
    (webhook : WebhookConfig) (payload s : String)
    (hsecret : webhook.secret = some s) (hne : s ≠ "")
    (hdigest : hmac s payload ≠ "") :
    (sendWebhookDelivery hmac webhook payload).headers.lookup
        "X-Sentinel-Signature" = some (hmac s payload) ∧
    validateSignature hmac (sendWebhookDelivery hmac webhook payload).body
      (hmac s payload) s = true := by
  have hsb : (s == "") = false := by
    simp [hne]
  have htruthy : secretTruthy (some s) = true := by
    simp [secretTruthy, hsb]
  constructor
  · simp [sendWebhookDelivery, generateSignature, hsecret, htruthy,
      List.lookup]
  · have hdb : (hmac s payload == "") = false := by
      simp [hdigest]
    simp [sendWebhookDelivery, validateSignature, hsb, hdb]

theorem webhook_signature_roundtrip_witness :
    (sendWebhookDelivery (fun k m => k ++ "-" ++ m)
        ⟨"w1", "hook", "http://example.com", some "topsecret",
          ["validator.unhealthy"], true, "u"⟩
        "payload").headers.lookup "X-Sentinel-Signature" =
      some "topsecret-payload" ∧
    validateSignature (fun k m => k ++ "-" ++ m) "payload"
      "topsecret-payload" "topsecret" = true := by
  have h := webhook_signature_roundtrip (fun k m => k ++ "-" ++ m)
    ⟨"w1", "hook", "http://example.com", some "topsecret",
      ["validator.unhealthy"], true, "u"⟩
    "payload" "topsecret" rfl (by decide) (by decide)
  exact h

/-! ### Self-inclusive quorum rule (C3) -/

/-- C3: for an UNHEALTHY probe result, with P2P enabled and a live peer
network and at least one connected peer, the agent sends the report iff
`agreeCount + 1 ≥ consensusThreshold`; with zero connected peers, or with P2P
disabled (or no peer network), the report is sent unconditionally. -/
theorem unhealthy_submission_rule (st : AgentReporterState)
    (selfId cid : String) (peerCount timeout : Nat)
    (events : List TimedResponse) (p2p hasNet : Bool) (threshold : Nat)
    (sendOk : Bool) :
    (p2p = true → hasNet = true → 0 < peerCount →
      ((handleUnhealthyResult st p2p hasNet threshold
          (requestConsensus selfId cid peerCount timeout events) sendOk).2 = 1
        ↔ threshold ≤
            (requestConsensus selfId cid peerCount timeout events).agreeCount
              + 1)) ∧
    (peerCount = 0 →
      (handleUnhealthyResult st p2p hasNet threshold
        (requestConsensus selfId cid peerCount timeout events) sendOk).2 =
        1) ∧
    ((p2p = false ∨ hasNet = false) →
      (handleUnhealthyResult st p2p hasNet threshold
        (requestConsensus selfId cid peerCount timeout events) sendOk).2 =
        1) := by
  have hsent : ∀ (cr : ConsensusResult),
      (handleUnhealthyResult st p2p hasNet threshold cr sendOk).2 =
        if confirmUnhealthyWithPeers p2p hasNet threshold cr then 1 else 0 := by
    intro cr
    cases h : confirmUnhealthyWithPeers p2p hasNet threshold cr <;>
      simp [handleUnhealthyResult, handleHealthResult, sendHealthReport, h]
  refine ⟨?_, ?_, ?_⟩
  · intro hp2p hnet hpos
    have hne : (peerCount == 0) = false := by
      simp; omega
    have htot : (requestConsensus selfId cid peerCount timeout
        events).totalPeers = peerCount := by
      simp [requestConsensus, hne]
    have hconf : confirmUnhealthyWithPeers p2p hasNet threshold
        (requestConsensus selfId cid peerCount timeout events) =
          decide (threshold ≤ (requestConsensus selfId cid peerCount timeout
            events).agreeCount + 1) := by
      simp [confirmUnhealthyWithPeers, hp2p, hnet, htot, hne]
    rw [hsent, hconf]
    by_cases hd : threshold ≤ (requestConsensus selfId cid peerCount timeout
        events).agreeCount + 1 <;> simp [hd]
  · intro hzero
    subst hzero
    have hconf : confirmUnhealthyWithPeers p2p hasNet threshold
        (requestConsensus selfId cid 0 timeout events) = true := by
      simp [confirmUnhealthyWithPeers, requestConsensus]
    rw [hsent, hconf]
    rfl
  · intro hoff
    have hconf : confirmUnhealthyWithPeers p2p hasNet threshold
        (requestConsensus selfId cid peerCount timeout events) = true := by
      cases hoff with
      | inl h => simp [confirmUnhealthyWithPeers, h]
      | inr h => simp [confirmUnhealthyWithPeers, h]
    rw [hsent, hconf]
    rfl

theorem unhealthy_submission_rule_witness :
    ((handleUnhealthyResult ⟨none⟩ true true 2
        (requestConsensus "self" "cid" 1 120000
          [⟨5, ⟨"v", "cid", true, "peer1", "self"⟩⟩]) true).2 = 1) ∧
    ((handleUnhealthyResult ⟨none⟩ true true 2
        (requestConsensus "self" "cid" 0 120000 []) true).2 = 1) := by
  constructor
  · exact (unhealthy_submission_rule ⟨none⟩ "self" "cid" 1 120000
      [⟨5, ⟨"v", "cid", true, "peer1", "self"⟩⟩] true true 2 true).1
      rfl rfl (by decide) |>.mpr (by decide)
  · exact ((unhealthy_submission_rule ⟨none⟩ "self" "cid" 0 120000 []
      true true 2 true).2).1 rfl

/-! ### Consensus request window (C6) -/

theorem optOr_none_right {α : Type} (x : Option α) : optOr x none = x := by
  cases x <;> rfl

theorem optOr_assoc {α : Type} (x y z : Option α) :
    optOr (optOr x y) z = optOr x (optOr y z) := by
  cases x <;> rfl

theorem find?_append_opt {α : Type} (l₁ l₂ : List α) (p : α → Bool) :
    (l₁ ++ l₂).find? p = optOr (l₁.find? p) (l₂.find? p) := by
  induction l₁ with
  | nil => simp [optOr]
  | cons x xs ih =>
    by_cases hx : p x
    · simp [List.find?, hx, optOr]
    · simp only [List.cons_append, List.find?]
      rw [Bool.of_not_eq_true hx]
      exact ih

theorem mem_upsertResponse (l : List ConsensusResponse)
    (r x : ConsensusResponse) (h : x ∈ upsertResponse l r) :
    x = r ∨ x ∈ l := by
  induction l with
  | nil => simpa [upsertResponse] using h
  | cons q qs ih =>
    by_cases hq : (q.agentId == r.agentId) = true
    · simp [upsertResponse, hq] at h
      rcases h with h | h
      · exact Or.inl h
      · exact Or.inr (by simp [h])
    · simp [upsertResponse, hq] at h
      rcases h with h | h
      · exact Or.inr (by simp [h])
      · rcases ih h with h | h
        · exact Or.inl h
        · exact Or.inr (by simp [h])

theorem upsertResponse_pairwise (l : List ConsensusResponse)
    (r : ConsensusResponse)
    (h : l.Pairwise (fun p q => p.agentId ≠ q.agentId)) :
    (upsertResponse l r).Pairwise (fun p q => p.agentId ≠ q.agentId) := by
  induction l with
  | nil => simp [upsertResponse]
  | cons q qs ih =>
    rcases List.pairwise_cons.mp h with ⟨hq, hqs⟩
    by_cases hqr : (q.agentId == r.agentId) = true
    · have heq : q.agentId = r.agentId := by
        exact eq_of_beq hqr
      simp only [upsertResponse, hqr, if_pos]
      refine List.pairwise_cons.mpr ⟨?_, hqs⟩
      intro x hx
      have := hq x hx
      simp_all
    · simp only [upsertResponse, hqr]
      simp only [Bool.false_eq_true, if_false]
      refine List.pairwise_cons.mpr ⟨?_, ih hqs⟩
      intro x hx
      rcases mem_upsertResponse qs r x hx with hxr | hxm
      · subst hxr
        intro hcontra
        exact hqr (by simp [hcontra])
      · exact hq x hxm

theorem upsert_find_self (l : List ConsensusResponse)
    (r : ConsensusResponse) :
    findResp (upsertResponse l r) r.agentId = some r := by
  induction l with
  | nil => simp [upsertResponse, findResp, List.find?]
  | cons q qs ih =>
    by_cases hq : (q.agentId == r.agentId) = true
    · simp [upsertResponse, hq, findResp, List.find?]
    · simp only [upsertResponse, hq, Bool.false_eq_true, if_false]
      simp only [findResp] at ih ⊢
      rw [List.find?]
      rw [Bool.of_not_eq_true hq]
      exact ih

theorem upsert_find_other (l : List ConsensusResponse)
    (r : ConsensusResponse) (a : String)
    (h : (r.agentId == a) = false) :
    findResp (upsertResponse l r) a = findResp l a := by
  induction l with
  | nil => simp [upsertResponse, findResp, List.find?, h]
  | cons q qs ih =>
    by_cases hq : (q.agentId == r.agentId) = true
    · have heq : q.agentId = r.agentId := eq_of_beq hq
      simp [upsertResponse, hq, findResp, List.find?, h, heq]
    · simp only [upsertResponse, hq, Bool.false_eq_true, if_false]
      simp only [findResp, List.find?] at ih ⊢
      cases hqa : (q.agentId == a) <;> simp [hqa, ih]

theorem foldl_handle_pairwise (selfId cid : String)
    (rs : List ConsensusResponse) (acc : List ConsensusResponse)
    (h : acc.Pairwise (fun p q => p.agentId ≠ q.agentId)) :
    (rs.foldl (handleConsensusResponse selfId cid) acc).Pairwise
      (fun p q => p.agentId ≠ q.agentId) := by
  induction rs generalizing acc with
  | nil => simpa using h
  | cons r rs ih =>
    simp only [List.foldl_cons]
    apply ih
    unfold handleConsensusResponse
    by_cases hacc : (r.consensusId == cid && r.requesterId == selfId) = true
    · simp only [hacc, if_pos]
      exact upsertResponse_pairwise acc r h
    · simp only [hacc]
      simpa using h

theorem foldl_handle_find (selfId cid : String)
    (rs : List ConsensusResponse) (acc : List ConsensusResponse)
    (a : String) :
    findResp (rs.foldl (handleConsensusResponse selfId cid) acc) a =
      optOr (rs.reverse.find?
          (fun r => acceptResponse selfId cid r && r.agentId == a))
        (findResp acc a) := by
  induction rs generalizing acc with
  | nil => simp [optOr]
  | cons r rs ih =>
    simp only [List.foldl_cons, List.reverse_cons]
    rw [find?_append_opt, optOr_assoc, ih]
    congr 1
    unfold handleConsensusResponse
    by_cases hacc : (r.consensusId == cid && r.requesterId == selfId) = true
    · simp only [hacc, if_pos]
      by_cases hag : (r.agentId == a) = true
      · have heq : r.agentId = a := eq_of_beq hag
        subst heq
        rw [upsert_find_self]
        simp [acceptResponse, hacc, List.find?, optOr]
      · rw [upsert_find_other acc r a (by simpa using hag)]
        simp [acceptResponse, hacc, hag, List.find?, optOr]
    · simp only [hacc]
      simp only [Bool.false_eq_true, if_false]
      have : (acceptResponse selfId cid r && r.agentId == a) = false := by
        simp [acceptResponse]
        intro h1 h2
        simp [h1, h2] at hacc
      simp [this, List.find?, optOr]

/-- C6: `requestConsensus` returns `{consensusId, [], 0, 0}` immediately when
no peers are connected; otherwise, after waiting the full timeout (the sleep
has no early-completion branch, so exactly the responses delivered before the
timeout are processed, however early the peers answered), it reports
`totalPeers` as the peer count, counts `agreeCount` as the number of kept
responses with `agree = true`, keeps at most one response per responding
`agentId`, with the latest matching response for an agent overwriting earlier
ones, and a response arriving at or after the timeout does not affect the
result at all. -/
theorem requestConsensus_spec (selfId cid : String)
    (peerCount timeout : Nat) (events : List TimedResponse) :
    (peerCount = 0 →
      requestConsensus selfId cid peerCount timeout events = ⟨cid, [], 0, 0⟩) ∧
    (0 < peerCount →
      (requestConsensus selfId cid peerCount timeout events).totalPeers =
        peerCount ∧
      (requestConsensus selfId cid peerCount timeout events).agreeCount =
        ((requestConsensus selfId cid peerCount timeout
          events).responses.filter (·.agree)).length ∧
      ((requestConsensus selfId cid peerCount timeout
        events).responses).Pairwise (fun p q => p.agentId ≠ q.agentId) ∧
      (∀ a : String,
        findResp
          (requestConsensus selfId cid peerCount timeout events).responses a =
        ((events.filter (fun e => e.arrival < timeout)).map
            (·.response)).reverse.find?
          (fun r => acceptResponse selfId cid r && r.agentId == a))) ∧
    (∀ e : TimedResponse, timeout ≤ e.arrival →
      requestConsensus selfId cid peerCount timeout (events ++ [e]) =
        requestConsensus selfId cid peerCount timeout events) := by
  refine ⟨?_, ?_, ?_⟩
  · intro h
    simp [requestConsensus, h]
  · intro hpos
    have hne : (peerCount == 0) = false := by simp; omega
    refine ⟨by simp [requestConsensus, hne], by simp [requestConsensus, hne],
      ?_, ?_⟩
    · simp only [requestConsensus, hne, Bool.false_eq_true, if_false]
      exact foldl_handle_pairwise selfId cid _ [] (by simp)
    · intro a
      simp only [requestConsensus, hne, Bool.false_eq_true, if_false]
      rw [foldl_handle_find selfId cid _ [] a]
      simp [findResp, optOr_none_right]
  · intro e he
    have harr : decide (e.arrival < timeout) = false := by
      simp; omega
    simp [requestConsensus, List.filter_append, harr]

theorem requestConsensus_spec_witness :
    requestConsensus "self" "cid" 0 120000
      [⟨1, ⟨"v", "cid", true, "p1", "self"⟩⟩] = ⟨"cid", [], 0, 0⟩ ∧
    (requestConsensus "self" "cid" 2 120000
      [⟨1, ⟨"v", "cid", true, "p1", "self"⟩⟩,
       ⟨2, ⟨"v", "cid", false, "p1", "self"⟩⟩]).totalPeers = 2 ∧
    findResp (requestConsensus "self" "cid" 2 120000
      [⟨1, ⟨"v", "cid", true, "p1", "self"⟩⟩,
       ⟨2, ⟨"v", "cid", false, "p1", "self"⟩⟩]).responses "p1" =
      some ⟨"v", "cid", false, "p1", "self"⟩ ∧
    requestConsensus "self" "cid" 2 120000
      [⟨1, ⟨"v", "cid", true, "p1", "self"⟩⟩,
       ⟨120000, ⟨"v", "cid", true, "p2", "self"⟩⟩] =
      requestConsensus "self" "cid" 2 120000
        [⟨1, ⟨"v", "cid", true, "p1", "self"⟩⟩] := by
  refine ⟨?_, ?_, ?_, ?_⟩
  · exact (requestConsensus_spec "self" "cid" 0 120000
      [⟨1, ⟨"v", "cid", true, "p1", "self"⟩⟩]).1 rfl
  · exact ((requestConsensus_spec "self" "cid" 2 120000
      [⟨1, ⟨"v", "cid", true, "p1", "self"⟩⟩,
       ⟨2, ⟨"v", "cid", false, "p1", "self"⟩⟩]).2.1 (by decide)).1
  · have h := (((requestConsensus_spec "self" "cid" 2 120000
      [⟨1, ⟨"v", "cid", true, "p1", "self"⟩⟩,
       ⟨2, ⟨"v", "cid", false, "p1", "self"⟩⟩]).2.1 (by decide)).2.2.2) "p1"
    rw [h]; decide
  · exact ((requestConsensus_spec "self" "cid" 2 120000
      [⟨1, ⟨"v", "cid", true, "p1", "self"⟩⟩]).2.2)
      ⟨120000, ⟨"v", "cid", true, "p2", "self"⟩⟩ (by decide)

/-! ### Quorum latch and exactly-once alert creation (C2) -/

theorem alerts_reachConsensus (env : AggEnv) (st : BackendState)
    (cd : ConsensusData) (key : String) :
    (reachConsensus env st cd key).alerts = st.alerts ∨
    ∃ a, (reachConsensus env st cd key).alerts = st.alerts ++ [a] ∧
      a.status = .PENDING := by
  unfold reachConsensus
  cases h : env.validators.find? (fun v => v.id == cd.validatorId) with
  | none => left; simp [h]
  | some validator =>
    by_cases hok : env.alertCreateOk = true
    · right
      refine ⟨⟨cd.validatorId, validator.userId,
        "Validator " ++ validator.name ++
          " is unhealthy. Consensus reached with " ++
          toString cd.reports.length ++ " agent reports.", .PENDING⟩,
        ?_, rfl⟩
      simp [h, hok]
    · left
      simp [h, Bool.of_not_eq_true hok]

theorem alerts_addReportToConsensus (env : AggEnv) (st : BackendState)
    (cd : ConsensusData) (key : String) (r : AgentReport) :
    (addReportToConsensus env st cd key r).alerts = st.alerts ∨
    ∃ a, (addReportToConsensus env st cd key r).alerts = st.alerts ++ [a] ∧
      a.status = .PENDING := by
  simp only [addReportToConsensus]
  split
  · exact alerts_reachConsensus env
      (withConsensusMap st
        (mapSet st.activeConsensus key (windowWithReport cd r)))
      (windowWithReport cd r) key
  · left; simp

theorem alerts_initiateConsensus (env : AggEnv) (st : BackendState)
    (r : AgentReport) :
    (initiateConsensus env st r).alerts = st.alerts ∨
    ∃ a, (initiateConsensus env st r).alerts = st.alerts ++ [a] ∧
      a.status = .PENDING := by
  simp only [initiateConsensus]
  cases hv : r.validatorId with
  | none => left; rfl
  | some vid =>
    simp only [hv]
    cases hfind : mapFind st.activeConsensus (consensusKey vid) with
    | some existing =>
      simp only [hfind]
      exact alerts_addReportToConsensus env st existing (consensusKey vid) r
    | none =>
      simp only [hfind]
      exact alerts_addReportToConsensus env
        (withConsensusMap st
          (mapSet st.activeConsensus (consensusKey vid)
            (newWindow vid r env.threshold)))
        (newWindow vid r env.threshold) (consensusKey vid) r

theorem alerts_cancelConsensus (st : BackendState) (vid : String) :
    (cancelConsensus st vid).alerts = st.alerts := by
  unfold cancelConsensus
  cases h : mapFind st.activeConsensus (consensusKey vid) <;> simp [h]

/-- C2: (first conjunct) once the `consensusReached` latch of a validator's
window is set, a further UNHEALTHY report for that validator creates no
additional alert — the quorum transition cannot fire twice on one window;
(second conjunct) any single processed report creates at most one alert, and
a created alert is PENDING; (third conjunct) an UNHEALTHY report that pushes
an unlatched window to its threshold — with the validator present and alert
storage healthy — creates exactly one new PENDING alert.  Together: exactly
one PENDING alert per quorum event. -/
theorem quorum_alert_latch (env : AggEnv) (now : Nat) (st : BackendState)
    (r : AgentReport) :
    (∀ (v : String) (cd : ConsensusData), r.validatorId = some v →
      r.status = .UNHEALTHY →
      mapFind st.activeConsensus (consensusKey v) = some cd →
      cd.consensusReached = true →
      ((processReport env now st r).1).alerts = st.alerts) ∧
    (((processReport env now st r).1).alerts = st.alerts ∨
      ∃ a, ((processReport env now st r).1).alerts = st.alerts ++ [a] ∧
        a.status = .PENDING) ∧
    (∀ (v : String) (cd : ConsensusData) (validator : Validator),
      r.validatorId = some v → r.status = .UNHEALTHY →
      st.dbAgents.any (fun a => a.id == r.agentId) = true →
      mapFind st.activeConsensus (consensusKey v) = some cd →
      cd.consensusReached = false →
      cd.threshold ≤ countUnhealthy (upsertWindowReport cd.reports r) →
      env.validators.find? (fun x => x.id == cd.validatorId) =
        some validator →
      env.alertCreateOk = true →
      ((processReport env now st r).1).alerts = st.alerts ++
        [⟨cd.validatorId, validator.userId,
          "Validator " ++ validator.name ++
            " is unhealthy. Consensus reached with " ++
            toString (upsertWindowReport cd.reports r).length ++
            " agent reports.", .PENDING⟩]) := by
  refine ⟨?_, ?_, ?_⟩
  · intro v cd hvid hstatus hfind hreached
    unfold processReport
    cases hup : updateLastSeenOrFail st.dbAgents r.agentId now with
    | none => simp
    | some agents =>
      have hsu : (r.status == ReportStatus.UNHEALTHY) = true := by
        simp [hstatus]
      simp only [hsu, if_true]
      simp only [initiateConsensus, hvid]
      have hfind1 : mapFind ({ st with dbAgents := agents } :
          BackendState).activeConsensus (consensusKey v) = some cd := hfind
      simp only [hfind1]
      simp only [addReportToConsensus]
      have hnf : ¬ (cd.threshold ≤
          countUnhealthy (upsertWindowReport cd.reports r) ∧
          cd.consensusReached = false) := by
        rw [hreached]; simp
      simp only [if_neg hnf]
  · unfold processReport
    cases hup : updateLastSeenOrFail st.dbAgents r.agentId now with
    | none => left; simp
    | some agents =>
      by_cases hun : (r.status == ReportStatus.UNHEALTHY) = true
      · simp only [hun, if_true]
        rcases alerts_initiateConsensus env { st with dbAgents := agents } r
          with h | ⟨a, ha, hp⟩
        · left; simpa using h
        · right; exact ⟨a, by simpa using ha, hp⟩
      · by_cases hh : (r.status == ReportStatus.HEALTHY) = true
        · left
          simp only [hun, hh]
          simpa using
            alerts_cancelConsensus { st with dbAgents := agents }
              (r.validatorId.getD "undefined")
        · left
          simp [hun, hh]
  · intro v cd validator hvid hstatus hany hfind hnotreached hquorum hvf hok
    unfold processReport
    have hup : updateLastSeenOrFail st.dbAgents r.agentId now =
        some (updateLastSeen st.dbAgents r.agentId now) := by
      unfold updateLastSeenOrFail
      rw [if_pos hany]
    simp only [hup]
    have hsu : (r.status == ReportStatus.UNHEALTHY) = true := by
      simp [hstatus]
    simp only [hsu, if_true]
    simp only [initiateConsensus, hvid]
    have hfind1 : mapFind ({ st with
        dbAgents := updateLastSeen st.dbAgents r.agentId now } :
        BackendState).activeConsensus (consensusKey v) = some cd := hfind
    simp only [hfind1]
    simp only [addReportToConsensus]
    have hpos : (cd.threshold ≤
        countUnhealthy (upsertWindowReport cd.reports r) ∧
        cd.consensusReached = false) := ⟨hquorum, hnotreached⟩
    rw [if_pos hpos]
    unfold reachConsensus
    have hvf1 : env.validators.find? (fun x => x.id ==
        (windowWithReport cd r).validatorId) = some validator := hvf
    simp only [windowWithReport] at hvf1
    simp only [hvf1]
    simp only [hok, if_true]

theorem quorum_alert_latch_witness :
    ((processReport ⟨[⟨"v", "Val", "u", true⟩], 2, true⟩ 7
      { activeConsensus := [(consensusKey "v",
          ⟨"v", .UNHEALTHY,
            [⟨1, "a1", some "v", .UNHEALTHY, none, none, false, 0⟩],
            true, 2⟩)]
        dbReports := [⟨1, "a1", some "v", .UNHEALTHY, none, none, false, 0⟩]
        dbAgents := [⟨"a3", "k3", true, some "v", 0⟩]
        alerts := [], broadcasts := [], webhooksFired := []
        reportHistory := [], nextReportId := 2 }
      ⟨2, "a3", some "v", .UNHEALTHY, none, none, false, 7⟩).1).alerts =
      [] := by
  exact (quorum_alert_latch ⟨[⟨"v", "Val", "u", true⟩], 2, true⟩ 7
    { activeConsensus := [(consensusKey "v",
        ⟨"v", .UNHEALTHY,
          [⟨1, "a1", some "v", .UNHEALTHY, none, none, false, 0⟩],
          true, 2⟩)]
      dbReports := [⟨1, "a1", some "v", .UNHEALTHY, none, none, false, 0⟩]
      dbAgents := [⟨"a3", "k3", true, some "v", 0⟩]
      alerts := [], broadcasts := [], webhooksFired := []
      reportHistory := [], nextReportId := 2 }
    ⟨2, "a3", some "v", .UNHEALTHY, none, none, false, 7⟩).1 "v"
    ⟨"v", .UNHEALTHY,
      [⟨1, "a1", some "v", .UNHEALTHY, none, none, false, 0⟩], true, 2⟩
    rfl rfl (by decide) rfl

/-! ### Ingress contract (C5) -/

theorem processReport_snd_none (env : AggEnv) (now : Nat) (st : BackendState)
    (r : AgentReport) : (processReport env now st r).2 = none := by
  unfold processReport
  cases updateLastSeenOrFail st.dbAgents r.agentId now <;> simp

theorem ingress_400_blank (env : AggEnv) (now : Nat) (st : BackendState)
    (req : ReportRequest)
    (hb : (blank req.agentId || blank req.agentApiKey ||
      blank req.validatorId || blank req.status) = true) :
    handleReport env now st req = (⟨400, false, none⟩, st) := by
  unfold handleReport
  simp [hb]

theorem ingress_400_status (env : AggEnv) (now : Nat) (st : BackendState)
    (req : ReportRequest)
    (hb : (blank req.agentId || blank req.agentApiKey ||
      blank req.validatorId || blank req.status) = false)
    (hparse : parseReportStatus (req.status.getD "") = none) :
    handleReport env now st req = (⟨400, false, none⟩, st) := by
  unfold handleReport
  simp [hb, hparse]

theorem ingress_401_unknown_agent (env : AggEnv) (now : Nat)
    (st : BackendState) (req : ReportRequest) (status : ReportStatus)
    (hb : (blank req.agentId || blank req.agentApiKey ||
      blank req.validatorId || blank req.status) = false)
    (hparse : parseReportStatus (req.status.getD "") = some status)
    (hagent : st.dbAgents.find? (fun a => a.id == req.agentId.getD "") =
      none) :
    handleReport env now st req = (⟨401, false, none⟩, st) := by
  unfold handleReport
  simp [hb, hparse, hagent]

theorem ingress_401_inactive_agent (env : AggEnv) (now : Nat)
    (st : BackendState) (req : ReportRequest) (status : ReportStatus)
    (agent : Agent)
    (hb : (blank req.agentId || blank req.agentApiKey ||
      blank req.validatorId || blank req.status) = false)
    (hparse : parseReportStatus (req.status.getD "") = some status)
    (hagent : st.dbAgents.find? (fun a => a.id == req.agentId.getD "") =
      some agent)
    (hactive : agent.isActive = false) :
    handleReport env now st req = (⟨401, false, none⟩, st) := by
  unfold handleReport
  simp [hb, hparse, hagent, hactive]

theorem ingress_401_key_mismatch (env : AggEnv) (now : Nat)
    (st : BackendState) (req : ReportRequest) (status : ReportStatus)
    (agent : Agent)
    (hb : (blank req.agentId || blank req.agentApiKey ||
      blank req.validatorId || blank req.status) = false)
    (hparse : parseReportStatus (req.status.getD "") = some status)
    (hagent : st.dbAgents.find? (fun a => a.id == req.agentId.getD "") =
      some agent)
    (hactive : agent.isActive = true)
    (hkey : (agent.apiKey == req.agentApiKey.getD "") = false) :
    handleReport env now st req = (⟨401, false, none⟩, st) := by
  unfold handleReport
  simp [hb, hparse, hagent, hactive, hkey]

theorem ingress_403_no_validator (env : AggEnv) (now : Nat)
    (st : BackendState) (req : ReportRequest) (status : ReportStatus)
    (agent : Agent)
    (hb : (blank req.agentId || blank req.agentApiKey ||
      blank req.validatorId || blank req.status) = false)
    (hparse : parseReportStatus (req.status.getD "") = some status)
    (hagent : st.dbAgents.find? (fun a => a.id == req.agentId.getD "") =
      some agent)
    (hactive : agent.isActive = true)
    (hkey : (agent.apiKey == req.agentApiKey.getD "") = true)
    (hval : agentValidator env agent = none) :
    handleReport env now st req = (⟨403, false, none⟩, st) := by
  unfold handleReport
  simp [hb, hparse, hagent, hactive, hkey, hval]

theorem ingress_403_scope (env : AggEnv) (now : Nat)
    (st : BackendState) (req : ReportRequest) (status : ReportStatus)
    (agent : Agent) (validator : Validator)
    (hb : (blank req.agentId || blank req.agentApiKey ||
      blank req.validatorId || blank req.status) = false)
    (hparse : parseReportStatus (req.status.getD "") = some status)
    (hagent : st.dbAgents.find? (fun a => a.id == req.agentId.getD "") =
      some agent)
    (hactive : agent.isActive = true)
    (hkey : (agent.apiKey == req.agentApiKey.getD "") = true)
    (hval : agentValidator env agent = some validator)
    (hscope : (validator.id == req.validatorId.getD "") = false) :
    handleReport env now st req = (⟨403, false, none⟩, st) := by
  unfold handleReport
  simp [hb, hparse, hagent, hactive, hkey, hval, hscope]

theorem ingress_403_inactive_validator (env : AggEnv) (now : Nat)
    (st : BackendState) (req : ReportRequest) (status : ReportStatus)
    (agent : Agent) (validator : Validator)
    (hb : (blank req.agentId || blank req.agentApiKey ||
      blank req.validatorId || blank req.status) = false)
    (hparse : parseReportStatus (req.status.getD "") = some status)
    (hagent : st.dbAgents.find? (fun a => a.id == req.agentId.getD "") =
      some agent)
    (hactive : agent.isActive = true)
    (hkey : (agent.apiKey == req.agentApiKey.getD "") = true)
    (hval : agentValidator env agent = some validator)
    (hscope : (validator.id == req.validatorId.getD "") = true)
    (hvactive : validator.isActive = false) :
    handleReport env now st req = (⟨403, false, none⟩, st) := by
  unfold handleReport
  simp [hb, hparse, hagent, hactive, hkey, hval, hscope, hvactive]

theorem ingress_200 (env : AggEnv) (now : Nat)
    (st : BackendState) (req : ReportRequest) (status : ReportStatus)
    (agent : Agent) (validator : Validator)
    (hb : (blank req.agentId || blank req.agentApiKey ||
      blank req.validatorId || blank req.status) = false)
    (hparse : parseReportStatus (req.status.getD "") = some status)
    (hagent : st.dbAgents.find? (fun a => a.id == req.agentId.getD "") =
      some agent)
    (hactive : agent.isActive = true)
    (hkey : (agent.apiKey == req.agentApiKey.getD "") = true)
    (hval : agentValidator env agent = some validator)
    (hscope : (validator.id == req.validatorId.getD "") = true)
    (hvactive : validator.isActive = true) :
    (handleReport env now st req).1 = ⟨200, true, some st.nextReportId⟩ := by
  unfold handleReport
  simp only [hb, Bool.false_eq_true, if_false, hparse, hagent, hactive,
    Bool.not_true, hkey, hval, hscope, hvactive]
  split
  · rfl
  · next st3 e heq =>
      have h2 := congrArg Prod.snd heq
      rw [processReport_snd_none] at h2
      simp at h2

/-- C5: the `POST /api/report` contract.  A request with a missing required
field or an unparseable status gets 400; an unknown or inactive agent, or an
API-key mismatch, gets 401; a missing/mismatched validator relation or an
inactive validator gets 403; in each rejected case the entire backend state
(persisted reports, `lastSeen`, the consensus map, alerts, broadcasts) is
returned unchanged and the aggregator is never invoked; a fully valid request
gets `200 {success := true, reportId}` with the fresh report id. -/
theorem report_ingress_contract (env : AggEnv) (now : Nat)
    (st : BackendState) (req : ReportRequest) :
    ((blank req.agentId || blank req.agentApiKey ||
        blank req.validatorId || blank req.status) = true →
      handleReport env now st req = (⟨400, false, none⟩, st)) ∧
    (∀ _hb : (blank req.agentId || blank req.agentApiKey ||
        blank req.validatorId || blank req.status) = false,
      (parseReportStatus (req.status.getD "") = none →
        handleReport env now st req = (⟨400, false, none⟩, st)) ∧
      (∀ status, parseReportStatus (req.status.getD "") = some status →
        (st.dbAgents.find? (fun a => a.id == req.agentId.getD "") = none →
          handleReport env now st req = (⟨401, false, none⟩, st)) ∧
        (∀ agent,
          st.dbAgents.find? (fun a => a.id == req.agentId.getD "") =
            some agent →
          (agent.isActive = false →
            handleReport env now st req = (⟨401, false, none⟩, st)) ∧
          (agent.isActive = true →
            ((agent.apiKey == req.agentApiKey.getD "") = false →
              handleReport env now st req = (⟨401, false, none⟩, st)) ∧
            (∀ _hkey : (agent.apiKey == req.agentApiKey.getD "") = true,
              (agentValidator env agent = none →
                handleReport env now st req = (⟨403, false, none⟩, st)) ∧
              (∀ validator, agentValidator env agent = some validator →
                ((validator.id == req.validatorId.getD "") = false →
                  handleReport env now st req = (⟨403, false, none⟩, st)) ∧
                ((validator.id == req.validatorId.getD "") = true →
                  (validator.isActive = false →
                    handleReport env now st req =
                      (⟨403, false, none⟩, st)) ∧
                  (validator.isActive = true →
                    (handleReport env now st req).1 =
                      ⟨200, true, some st.nextReportId⟩)))))))) := by
  refine ⟨fun hb => ingress_400_blank env now st req hb, fun hb => ⟨?_, ?_⟩⟩
  · exact fun hp => ingress_400_status env now st req hb hp
  · intro status hparse
    refine ⟨fun ha => ingress_401_unknown_agent env now st req status hb
      hparse ha, ?_⟩
    intro agent hagent
    refine ⟨fun hact => ingress_401_inactive_agent env now st req status
      agent hb hparse hagent hact, ?_⟩
    intro hactive
    refine ⟨fun hk => ingress_401_key_mismatch env now st req status agent
      hb hparse hagent hactive hk, ?_⟩
    intro hkey
    refine ⟨fun hv => ingress_403_no_validator env now st req status agent
      hb hparse hagent hactive hkey hv, ?_⟩
    intro validator hval
    refine ⟨fun hs => ingress_403_scope env now st req status agent
      validator hb hparse hagent hactive hkey hval hs, ?_⟩
    intro hscope
    refine ⟨fun hva => ingress_403_inactive_validator env now st req status
      agent validator hb hparse hagent hactive hkey hval hscope hva, ?_⟩
    intro hvactive
    exact ingress_200 env now st req status agent validator hb hparse
      hagent hactive hkey hval hscope hvactive

theorem report_ingress_contract_witness :
    handleReport ⟨[⟨"v", "Val", "u", true⟩], 2, true⟩ 3
      { activeConsensus := [], dbReports := []
        dbAgents := [⟨"a1", "k1", true, some "v", 0⟩]
        alerts := [], broadcasts := [], webhooksFired := []
        reportHistory := [], nextReportId := 9 }
      ⟨some "a1", some "wrong", some "v", some "HEALTHY", none, none⟩ =
      (⟨401, false, none⟩,
        { activeConsensus := [], dbReports := []
          dbAgents := [⟨"a1", "k1", true, some "v", 0⟩]
          alerts := [], broadcasts := [], webhooksFired := []
          reportHistory := [], nextReportId := 9 }) ∧
    (handleReport ⟨[⟨"v", "Val", "u", true⟩], 2, true⟩ 3
      { activeConsensus := [], dbReports := []
        dbAgents := [⟨"a1", "k1", true, some "v", 0⟩]
        alerts := [], broadcasts := [], webhooksFired := []
        reportHistory := [], nextReportId := 9 }
      ⟨some "a1", some "k1", some "v", some "HEALTHY", none, none⟩).1 =
      ⟨200, true, some 9⟩ := by
  constructor
  · exact ((((report_ingress_contract ⟨[⟨"v", "Val", "u", true⟩], 2, true⟩ 3
      { activeConsensus := [], dbReports := []
        dbAgents := [⟨"a1", "k1", true, some "v", 0⟩]
        alerts := [], broadcasts := [], webhooksFired := []
        reportHistory := [], nextReportId := 9 }
      ⟨some "a1", some "wrong", some "v", some "HEALTHY", none,
        none⟩).2 (by decide)).2 .HEALTHY (by decide)).2
      ⟨"a1", "k1", true, some "v", 0⟩ (by decide)).2 rfl |>.1 (by decide)
  · have h := report_ingress_contract ⟨[⟨"v", "Val", "u", true⟩], 2, true⟩ 3
      { activeConsensus := [], dbReports := []
        dbAgents := [⟨"a1", "k1", true, some "v", 0⟩]
        alerts := [], broadcasts := [], webhooksFired := []
        reportHistory := [], nextReportId := 9 }
      ⟨some "a1", some "k1", some "v", some "HEALTHY", none, none⟩
    have h1 := ((h.2 (by decide)).2 .HEALTHY (by decide)).2
      ⟨"a1", "k1", true, some "v", 0⟩ (by decide)
    have h2 := (h1.2 rfl).2 (by decide)
    have h3 := h2.2 ⟨"v", "Val", "u", true⟩ (by decide)
    have h4 := h3.2 (by decide)
    exact h4.2 rfl

/-! ### Pass-through statuses leave the consensus map untouched (C10) -/

theorem updateLastSeen_id_pred (l : List Agent) (aid : String) (now : Nat)
    (p : String → Bool) :
    (updateLastSeen l aid now).any (fun a => p a.id) =
      l.any (fun a => p a.id) := by
  induction l with
  | nil => rfl
  | cons a as ih =>
    have hid : (if (a.id == aid) = true then
        ({ a with lastSeen := now } : Agent) else a).id = a.id := by
      split <;> rfl
    simp only [updateLastSeen, List.map_cons, List.any_cons] at ih ⊢
    rw [hid]
    exact congrArg (fun b => p a.id || b) ih

theorem updateLastSeen_idem (l : List Agent) (aid : String) (now : Nat) :
    updateLastSeen (updateLastSeen l aid now) aid now =
      updateLastSeen l aid now := by
  induction l with
  | nil => rfl
  | cons a as ih =>
    simp only [updateLastSeen, List.map_cons] at ih ⊢
    refine congrArg₂ List.cons ?_ ih
    by_cases ha : (a.id == aid) = true
    · rw [if_pos ha]
      have ha2 : ((({ a with lastSeen := now } : Agent).id == aid) = true) :=
        ha
      rw [if_pos ha2]
    · rw [if_neg ha, if_neg ha]

theorem any_id_of_find (l : List Agent) (q : String) (agent : Agent)
    (h : l.find? (fun a => a.id == q) = some agent) :
    l.any (fun a => a.id == agent.id) = true := by
  have hmem : agent ∈ l := List.mem_of_find?_eq_some h
  exact List.any_eq_true.mpr ⟨agent, hmem, by simp⟩

theorem processReport_other_status (env : AggEnv) (now : Nat)
    (st : BackendState) (r : AgentReport)
    (hne1 : (r.status == ReportStatus.UNHEALTHY) = false)
    (hne2 : (r.status == ReportStatus.HEALTHY) = false)
    (hany : st.dbAgents.any (fun a => a.id == r.agentId) = true) :
    processReport env now st r =
      ({ st with dbAgents := updateLastSeen st.dbAgents r.agentId now,
                 reportHistory :=
                   addToReportHistory st.reportHistory r.agentId now },
       none) := by
  unfold processReport
  simp [updateLastSeenOrFail, hany, hne1, hne2]

/-- C10: an accepted report whose status is CONSENSUS_REACHED or
CONSENSUS_FAILED (both admitted by the ingress validator) passes through the
aggregator without touching any consensus window: the `activeConsensus` map,
the alerts, the broadcasts, the fired webhooks and the statuses of all
previously persisted reports are unchanged, and the only durable effects are
the newly persisted report row and the `lastSeen` update of the reporting
agent. -/
theorem consensus_status_report_frame (env : AggEnv) (now : Nat)
    (st : BackendState) (req : ReportRequest) (status : ReportStatus)
    (agent : Agent) (validator : Validator)
    (hstat : status = .CONSENSUS_REACHED ∨ status = .CONSENSUS_FAILED)
    (hb : (blank req.agentId || blank req.agentApiKey ||
      blank req.validatorId || blank req.status) = false)
    (hparse : parseReportStatus (req.status.getD "") = some status)
    (hagent : st.dbAgents.find? (fun a => a.id == req.agentId.getD "") =
      some agent)
    (hactive : agent.isActive = true)
    (hkey : (agent.apiKey == req.agentApiKey.getD "") = true)
    (hval : agentValidator env agent = some validator)
    (hscope : (validator.id == req.validatorId.getD "") = true)
    (hvactive : validator.isActive = true) :
    (handleReport env now st req).2.activeConsensus = st.activeConsensus ∧
    (handleReport env now st req).2.alerts = st.alerts ∧
    (handleReport env now st req).2.broadcasts = st.broadcasts ∧
    (handleReport env now st req).2.webhooksFired = st.webhooksFired ∧
    (handleReport env now st req).2.dbReports = st.dbReports ++
      [⟨st.nextReportId, agent.id, some (req.validatorId.getD ""), status,
        req.message, req.signature, false, now⟩] ∧
    (handleReport env now st req).2.dbAgents =
      updateLastSeen st.dbAgents agent.id now ∧
    (handleReport env now st req).2.nextReportId = st.nextReportId + 1 := by
  have hne1 : (status == ReportStatus.UNHEALTHY) = false := by
    rcases hstat with h | h <;> subst h <;> decide
  have hne2 : (status == ReportStatus.HEALTHY) = false := by
    rcases hstat with h | h <;> subst h <;> decide
  unfold handleReport
  simp only [hb, Bool.false_eq_true, if_false, hparse, hagent, hactive,
    Bool.not_true, hkey, hval, hscope, hvactive]
  rw [processReport_other_status env now _ _ hne1 hne2
    (by
      exact (updateLastSeen_id_pred st.dbAgents agent.id now
          (fun x => x == agent.id)).trans
        (any_id_of_find st.dbAgents (req.agentId.getD "") agent hagent))]
  refine ⟨rfl, rfl, rfl, rfl, rfl, ?_, rfl⟩
  exact updateLastSeen_idem st.dbAgents agent.id now

theorem consensus_status_report_frame_witness :
    ((handleReport ⟨[⟨"v", "Val", "u", true⟩], 2, true⟩ 11
      { activeConsensus := [(consensusKey "w",
          ⟨"w", .UNHEALTHY,
            [⟨1, "b1", some "w", .UNHEALTHY, none, none, false, 0⟩],
            false, 2⟩)]
        dbReports := [⟨1, "b1", some "w", .UNHEALTHY, none, none, false, 0⟩]
        dbAgents := [⟨"a1", "k1", true, some "v", 0⟩]
        alerts := [], broadcasts := [], webhooksFired := []
        reportHistory := [], nextReportId := 2 }
      ⟨some "a1", some "k1", some "v", some "CONSENSUS_REACHED", none,
        none⟩).2.activeConsensus = [(consensusKey "w",
          ⟨"w", .UNHEALTHY,
            [⟨1, "b1", some "w", .UNHEALTHY, none, none, false, 0⟩],
            false, 2⟩)]) ∧
    ((handleReport ⟨[⟨"v", "Val", "u", true⟩], 2, true⟩ 11
      { activeConsensus := [(consensusKey "w",
          ⟨"w", .UNHEALTHY,
            [⟨1, "b1", some "w", .UNHEALTHY, none, none, false, 0⟩],
            false, 2⟩)]
        dbReports := [⟨1, "b1", some "w", .UNHEALTHY, none, none, false, 0⟩]
        dbAgents := [⟨"a1", "k1", true, some "v", 0⟩]
        alerts := [], broadcasts := [], webhooksFired := []
        reportHistory := [], nextReportId := 2 }
      ⟨some "a1", some "k1", some "v", some "CONSENSUS_REACHED", none,
        none⟩).2.alerts = []) := by
  have h := consensus_status_report_frame ⟨[⟨"v", "Val", "u", true⟩], 2,
    true⟩ 11
    { activeConsensus := [(consensusKey "w",
        ⟨"w", .UNHEALTHY,
          [⟨1, "b1", some "w", .UNHEALTHY, none, none, false, 0⟩],
          false, 2⟩)]
      dbReports := [⟨1, "b1", some "w", .UNHEALTHY, none, none, false, 0⟩]
      dbAgents := [⟨"a1", "k1", true, some "v", 0⟩]
      alerts := [], broadcasts := [], webhooksFired := []
      reportHistory := [], nextReportId := 2 }
    ⟨some "a1", some "k1", some "v", some "CONSENSUS_REACHED", none, none⟩
    .CONSENSUS_REACHED ⟨"a1", "k1", true, some "v", 0⟩
    ⟨"v", "Val", "u", true⟩ (Or.inl rfl) (by decide) (by decide)
    (by decide) rfl (by decide) (by decide) (by decide) rfl
  exact ⟨h.1, h.2.1⟩

end Sentinel
